import Mathlib

/-!
Shallow embedding of the CLOVER finance module (`src/clover/impact/finance.py`).

Numeric idealisation: Python floats are modelled as exact arithmetic — `ℚ`
wherever the source only adds, multiplies and raises to integer powers, and
`ℝ` for the discounting chain, which needs the real power `x ^ (1/365)`.
The `logger` argument of the source functions carries no behaviour that is
modelled (it only formats messages) and is dropped.
-/

namespace Clover

/-- One per-component record of the finance-inputs mapping.  The source keys
`COST` and `INSTALLATION_COST` are both the string `"cost"`, and likewise
`COST_DECREASE` and `INSTALLATION_COST_DECREASE` are both `"cost_decrease"`,
so capital and installation formulas read the same two fields. -/
structure ComponentCosts where
  cost : ℚ
  cost_decrease : ℚ
  om : ℚ
  lifetime : ℕ
  size_increment : ℚ
  connection_cost : ℚ
deriving DecidableEq

/-- The finance-inputs mapping: one optional entry per component key that the
module reads, plus the top-level scalars `"discount_rate"` and
`"general_o&m"`.  `none` models absence of the key from the parsed dict. -/
structure FinanceInputs where
  bos : Option ComponentCosts := none
  clean_water_tank : Option ComponentCosts := none
  diesel_generator : Option ComponentCosts := none
  diesel_fuel : Option ComponentCosts := none
  general_om : Option ℚ := none
  hot_water_tank : Option ComponentCosts := none
  households : Option ComponentCosts := none
  inverter : Option ComponentCosts := none
  misc : Option ComponentCosts := none
  pv : Option ComponentCosts := none
  pv_t : Option ComponentCosts := none
  storage : Option ComponentCosts := none
  discount_rate : Option ℚ := none
deriving DecidableEq

/-- Errors surfaced by the finance module: `keyError` models a Python
`KeyError` on a missing dict key; `inputFileError` models the module's own
`InputFileError(info_file_name, msg)` (defined outside the four source files),
recording which component the message names. -/
inductive FinanceError where
  | keyError (key : String)
  | inputFileError (infoFile : String) (component : String)
deriving DecidableEq

/-- Dict access `finance_inputs[key]` for a component entry. -/
def getEntry (entry : Option ComponentCosts) (key : String) :
    Except FinanceError ComponentCosts :=
  match entry with
  | some c => .ok c
  | none => .error (.keyError key)

/-- Dict access `finance_inputs[key]` for a scalar entry. -/
def getScalar (entry : Option ℚ) (key : String) : Except FinanceError ℚ :=
  match entry with
  | some q => .ok q
  | none => .error (.keyError key)

/-- Explicit `Except` sequencing (the desugared form of the source's
sequential statements: an earlier raised error short-circuits). -/
def bindE {α β : Type} (x : Except FinanceError α)
    (f : α → Except FinanceError β) : Except FinanceError β :=
  match x with
  | .error e => .error e
  | .ok a => f a

/-- Source `_component_cost`: `cost * size * (1 - 0.01 * cost_decrease) ** installation_year`. -/
def _component_cost (component_cost component_cost_decrease component_size : ℚ)
    (installation_year : ℕ) : ℚ :=
  component_cost * component_size
    * (1 - 0.01 * component_cost_decrease) ^ installation_year

/-- Source `_component_installation_cost`:
`size * installation_cost * (1 - 0.01 * installation_cost_decrease) ** installation_year`. -/
def _component_installation_cost
    (component_size installation_cost installation_cost_decrease : ℚ)
    (installation_year : ℕ) : ℚ :=
  component_size * installation_cost
    * (1 - 0.01 * installation_cost_decrease) ^ installation_year

/-- Source `_misc_costs`: `(pv_array_size + diesel_size) * misc_costs`. -/
def _misc_costs (diesel_size misc_costs pv_array_size : ℚ) : ℚ :=
  (pv_array_size + diesel_size) * misc_costs

/-- Source `_daily_discount_rate`: `((1 + discount_rate) ** (1/365)) - 1`
(real power). -/
noncomputable def _daily_discount_rate (discount_rate : ℝ) : ℝ :=
  (1 + discount_rate) ^ ((1 : ℝ) / 365) - 1

/-- Source `_discounted_fraction`: the list `[denominator ** -t for t in
range(start_year*365, end_year*365)]` with `denominator = 1 + r_d`. -/
noncomputable def _discounted_fraction (discount_rate : ℝ)
    (start_year end_year : ℕ) : List ℝ :=
  let start_day := start_year * 365
  let end_day := end_year * 365
  let r_d := _daily_discount_rate discount_rate
  let denominator := 1 + r_d
  (List.range' start_day (end_day - start_day)).map fun t : ℕ =>
    denominator ^ (-(t : ℤ))

/-- Source `discounted_energy_total`: looks up `"discount_rate"` (KeyError when
absent), multiplies the discount-fraction frame by the daily frame and sums.
pandas aligns the two single-column frames on their 0-based row index,
NaN-padding the longer one, and the subsequent sum skips NaN, so only the
overlapping prefix contributes — modelled by the truncating `zipWith`. -/
noncomputable def discounted_energy_total (finance_inputs : FinanceInputs)
    (total_daily : List ℚ) (start_year end_year : ℕ) :
    Except FinanceError ℝ :=
  match finance_inputs.discount_rate with
  | none => .error (.keyError "discount_rate")
  | some discount_rate =>
    .ok (List.zipWith (· * ·)
      (_discounted_fraction (discount_rate : ℝ) start_year end_year)
      (total_daily.map fun q : ℚ => (q : ℝ))).sum

/-- Source `_component_om`: a constant daily series of `(size * om_cost) / 365`
replicated `(end_year - start_year) * 265` times (265 as in the source, not
365), then discounted via `discounted_energy_total`. -/
noncomputable def _component_om (component_om_cost component_size : ℚ)
    (finance_inputs : FinanceInputs) (start_year end_year : ℕ) :
    Except FinanceError ℝ :=
  let om_cost_daily := component_size * component_om_cost / 365
  let total_daily_cost :=
    List.replicate ((end_year - start_year) * 265) om_cost_daily
  discounted_energy_total finance_inputs total_daily_cost start_year end_year

/-- Source `get_total_equipment_cost`, with the source's evaluation order: the BOS
entry is read first, then the clean-water check, the diesel entry, the
hot-water check, the PV entry, the PV-T check, the storage entry and finally
the misc entry.  Two calls pass `pv_array_size` where the named component's
own size would be expected: the diesel installation cost and the PV-T
capital cost. -/
def get_total_equipment_cost (clean_water_tanks diesel_size : ℚ)
    (finance_inputs : FinanceInputs)
    (hot_water_tanks pv_array_size pvt_array_size storage_size : ℚ)
    (installation_year : ℕ) : Except FinanceError ℚ :=
  bindE (getEntry finance_inputs.bos "bos") fun bos =>
  let bos_cost :=
    _component_cost bos.cost bos.cost_decrease pv_array_size installation_year
  if finance_inputs.clean_water_tank = none ∧ 0 < clean_water_tanks then
    .error (.inputFileError "finance inputs" "clean_water_tank")
  else
  bindE (if 0 < clean_water_tanks then
      bindE (getEntry finance_inputs.clean_water_tank "clean_water_tank")
        fun cw => .ok
          (_component_cost cw.cost cw.cost_decrease clean_water_tanks
            installation_year,
           _component_installation_cost clean_water_tanks cw.cost
            cw.cost_decrease installation_year)
    else .ok ((0 : ℚ), (0 : ℚ))) fun cwPair =>
  bindE (getEntry finance_inputs.diesel_generator "diesel_generator") fun dg =>
  let diesel_cost :=
    _component_cost dg.cost dg.cost_decrease diesel_size installation_year
  -- source line 444: the first argument is pv_array_size, not diesel_size
  let diesel_installation_cost :=
    _component_installation_cost pv_array_size dg.cost dg.cost_decrease
      installation_year
  if finance_inputs.hot_water_tank = none ∧ 0 < hot_water_tanks then
    .error (.inputFileError "tank inputs" "hot_water_tank")
  else
  bindE (if 0 < hot_water_tanks then
      bindE (getEntry finance_inputs.hot_water_tank "hot_water_tank")
        fun hw => .ok
          (_component_cost hw.cost hw.cost_decrease hot_water_tanks
            installation_year,
           _component_installation_cost hot_water_tanks hw.cost
            hw.cost_decrease installation_year)
    else .ok ((0 : ℚ), (0 : ℚ))) fun hwPair =>
  bindE (getEntry finance_inputs.pv "pv") fun pvE =>
  let pv_cost :=
    _component_cost pvE.cost pvE.cost_decrease pv_array_size installation_year
  let pv_installation_cost :=
    _component_installation_cost pv_array_size pvE.cost pvE.cost_decrease
      installation_year
  if finance_inputs.pv_t = none ∧ 0 < pvt_array_size then
    .error (.inputFileError "finance inputs" "pv_t")
  else
  bindE (if 0 < pvt_array_size then
      bindE (getEntry finance_inputs.pv_t "pv_t") fun pvt => .ok
        -- source line 512: the size argument is pv_array_size, not
        -- pvt_array_size
        (_component_cost pvt.cost pvt.cost_decrease pv_array_size
          installation_year,
         _component_installation_cost pvt_array_size pvt.cost
          pvt.cost_decrease installation_year)
    else .ok ((0 : ℚ), (0 : ℚ))) fun pvtPair =>
  bindE (getEntry finance_inputs.storage "storage") fun st =>
  let storage_cost :=
    _component_cost st.cost st.cost_decrease storage_size installation_year
  let total_installation_cost :=
    cwPair.2 + diesel_installation_cost + hwPair.2 + pv_installation_cost
      + pvtPair.2
  bindE (getEntry finance_inputs.misc "misc") fun miscE =>
  let misc_costs := _misc_costs diesel_size miscE.cost pv_array_size
  .ok (bos_cost + cwPair.1 + diesel_cost + hwPair.1 + misc_costs + pv_cost
    + pvtPair.1 + storage_cost + total_installation_cost)

/-- Source `np.max` over the single-column households frame (undefined on an empty
frame in the source; the claims only use nonempty series). -/
def npMax : List ℚ → ℚ
  | [] => 0
  | h :: t => t.foldl max h

/-- Source `np.min` over the single-column households frame. -/
def npMin : List ℚ → ℚ
  | [] => 0
  | h :: t => t.foldl min h

/-- Source `connections_expenditure`:
`(max(households) - min(households)) * connection_cost * (1 - discount_rate) ** installation_year`. -/
def connections_expenditure (finance_inputs : FinanceInputs)
    (households : List ℚ) (installation_year : ℕ) : Except FinanceError ℚ :=
  let new_connections := npMax households - npMin households
  bindE (getEntry finance_inputs.households "households") fun hh =>
  let undiscounted_cost := hh.connection_cost * new_connections
  bindE (getScalar finance_inputs.discount_rate "discount_rate")
    fun discount_rate =>
  let discount_fraction := (1 - discount_rate) ^ installation_year
  .ok (undiscounted_cost * discount_fraction)

/-- Source `discounted_equipment_cost`: the undiscounted total from
`get_total_equipment_cost` times `(1 - discount_rate) ** installation_year`. -/
def discounted_equipment_cost (clean_water_tanks diesel_size : ℚ)
    (finance_inputs : FinanceInputs)
    (hot_water_tanks pv_array_size pvt_array_size storage_size : ℚ)
    (installation_year : ℕ) : Except FinanceError ℚ :=
  bindE (get_total_equipment_cost clean_water_tanks diesel_size finance_inputs
    hot_water_tanks pv_array_size pvt_array_size storage_size
    installation_year) fun undiscounted_cost =>
  bindE (getScalar finance_inputs.discount_rate "discount_rate")
    fun discount_rate =>
  .ok (undiscounted_cost * (1 - discount_rate) ^ installation_year)

/-- Source `total_om`, with the source's evaluation order (clean-water check,
clean-water O&M, diesel, general, hot-water check, hot-water O&M, PV, PV-T
check, PV-T O&M, storage).  Every `_component_om` call reads
`"discount_rate"` through `discounted_energy_total`. -/
noncomputable def total_om (clean_water_tanks diesel_size : ℚ)
    (finance_inputs : FinanceInputs)
    (hot_water_tanks pv_array_size pvt_array_size storage_size : ℚ)
    (start_year end_year : ℕ) : Except FinanceError ℝ :=
  if finance_inputs.clean_water_tank = none ∧ 0 < clean_water_tanks then
    .error (.inputFileError "tank inputs" "clean_water_tank")
  else
  bindE (if 0 < clean_water_tanks then
      bindE (getEntry finance_inputs.clean_water_tank "clean_water_tank")
        fun cw =>
        _component_om cw.om clean_water_tanks finance_inputs start_year
          end_year
    else .ok (0 : ℝ)) fun clean_water_tank_om =>
  bindE (getEntry finance_inputs.diesel_generator "diesel_generator") fun dg =>
  bindE (_component_om dg.om diesel_size finance_inputs start_year end_year)
    fun diesel_om =>
  bindE (getScalar finance_inputs.general_om "general_o&m") fun general =>
  bindE (_component_om general 1 finance_inputs start_year end_year)
    fun general_om =>
  if finance_inputs.hot_water_tank = none ∧ 0 < hot_water_tanks then
    .error (.inputFileError "tank inputs" "hot_water_tank")
  else
  bindE (if 0 < hot_water_tanks then
      bindE (getEntry finance_inputs.hot_water_tank "hot_water_tank")
        fun hw =>
        _component_om hw.om hot_water_tanks finance_inputs start_year end_year
    else .ok (0 : ℝ)) fun hot_water_tank_om =>
  bindE (getEntry finance_inputs.pv "pv") fun pvE =>
  bindE (_component_om pvE.om pv_array_size finance_inputs start_year
    end_year) fun pv_om =>
  if finance_inputs.pv_t = none ∧ 0 < pvt_array_size then
    .error (.inputFileError "finance inputs" "pv_t")
  else
  bindE (if 0 < pvt_array_size then
      bindE (getEntry finance_inputs.pv_t "pv_t") fun pvt =>
        _component_om pvt.om pvt_array_size finance_inputs start_year end_year
    else .ok (0 : ℝ)) fun pvt_om =>
  bindE (getEntry finance_inputs.storage "storage") fun st =>
  bindE (_component_om st.om storage_size finance_inputs start_year end_year)
    fun storage_om =>
  .ok (clean_water_tank_om + diesel_om + general_om + hot_water_tank_om
    + pv_om + pvt_om + storage_om)

/-- Source `np.arange(0, stop, step)` over naturals: the multiples of `step`
below `stop` (`⌈stop/step⌉` of them). -/
def npArange (stop step : ℕ) : List ℕ :=
  (List.range ((stop + step - 1) / step)).map (· * step)

/-- numpy `.round(2)` on the final sum, idealised to exact arithmetic:
round half to even at two decimal places. -/
def npRoundHalfEven (x : ℚ) : ℤ :=
  if Int.fract x = 1 / 2 then 2 * round (x / 2) else round x

/-- Round to two decimal places, ties to even. -/
def npRound2 (x : ℚ) : ℚ := (npRoundHalfEven (100 * x) : ℚ) / 100

/-- Source `_inverter_expenditure`: replacement years `np.arange(0, max_years,
lifetime)`; early `0.0` when none falls in `range(start_year, end_year)`;
otherwise per-event `discount_fraction * size * cost` with
`size = ceil(0.001 * max_power / step) * step` (the slice
`yearly_load_statistics["Maximum"].iloc[y : y + lifetime]`; pandas gives NaN
for the max of an empty slice — the model returns 0 there and the theorems
keep the slice nonempty), summed over the events inside the window and
rounded to two decimals. -/
def _inverter_expenditure (finance_inputs : FinanceInputs) (maxYears : ℕ)
    (yearlyLoadMaximum : List ℚ) (start_year end_year : ℕ) :
    Except FinanceError ℚ :=
  bindE (getEntry finance_inputs.inverter "inverter") fun inverter =>
  let replacement_period := inverter.lifetime
  let replacement_intervals := npArange maxYears replacement_period
  if replacement_intervals.filter
      (fun y => decide (start_year ≤ y ∧ y < end_year)) = [] then
    .ok 0
  else
  let inverter_step := inverter.size_increment
  bindE (getScalar finance_inputs.discount_rate "discount_rate")
    fun discount_rate =>
  let expenditures := replacement_intervals.map fun y =>
    let max_power_interval :=
      ((yearlyLoadMaximum.drop y).take replacement_period).max?.getD 0
    let inverter_size : ℚ :=
      (⌈0.001 * max_power_interval / inverter_step⌉ : ℚ) * inverter_step
    let discount_fraction := (1 - discount_rate) ^ y
    let inverter_cost :=
      inverter.cost * (1 - 0.01 * inverter.cost_decrease) ^ y
    (y, discount_fraction * inverter_size * inverter_cost)
  .ok (npRound2 (((expenditures.filter
    (fun e => decide (start_year ≤ e.1 ∧ e.1 < end_year))).map Prod.snd).sum))

/-- The result is a `KeyError` on some dict key. -/
def isKeyError {α : Type} : Except FinanceError α → Bool
  | .error (.keyError _) => true
  | _ => false

/-- The call returned a value rather than raising. -/
def isOkE {α : Type} : Except FinanceError α → Bool
  | .ok _ => true
  | _ => false

/-! ### Shared lemmas about the embedding -/

theorem length_discounted_fraction (r : ℝ) (sy ey : ℕ) :
    (_discounted_fraction r sy ey).length = (ey - sy) * 365 := by
  simp only [_discounted_fraction, List.length_map, List.length_range']
  omega

theorem getD_discounted_fraction (r : ℝ) (sy ey i : ℕ)
    (h : i < (ey - sy) * 365) :
    (_discounted_fraction r sy ey).getD i 0
      = (1 + _daily_discount_rate r) ^ (-((sy * 365 + i : ℕ) : ℤ)) := by
  have hlen : i < (_discounted_fraction r sy ey).length := by
    rw [length_discounted_fraction]; exact h
  rw [List.getD_eq_getElem _ _ hlen]
  simp only [_discounted_fraction, List.getElem_map, List.getElem_range',
    one_mul]

theorem sum_zipWith_mul_map_range' (f : ℕ → ℝ) (b : List ℝ) (s n : ℕ) :
    (List.zipWith (· * ·) ((List.range' s n).map f) b).sum
      = ∑ i ∈ Finset.range (min n b.length), f (s + i) * b.getD i 0 := by
  induction n generalizing s b with
  | zero => simp
  | succ n ih =>
    cases b with
    | nil => simp
    | cons x t =>
      rw [List.range'_succ, List.map_cons, List.zipWith_cons_cons,
        List.sum_cons, ih, List.length_cons, Nat.succ_min_succ,
        Finset.sum_range_succ']
      simp only [List.getD_cons_succ, List.getD_cons_zero, Nat.add_zero]
      rw [add_comm]
      congr 1
      refine Finset.sum_congr rfl fun i _ => ?_
      rw [Nat.add_assoc, Nat.add_comm 1 i]

theorem getD_map_ratCast (l : List ℚ) (i : ℕ) :
    (l.map fun q : ℚ => (q : ℝ)).getD i 0 = ((l.getD i 0 : ℚ) : ℝ) := by
  rw [List.getD_eq_getElem?_getD, List.getD_eq_getElem?_getD,
    List.getElem?_map]
  cases h : l[i]? <;> simp [h]

theorem discounted_energy_total_eq (finance_inputs : FinanceInputs)
    (total_daily : List ℚ) (sy ey : ℕ) (r : ℚ)
    (h : finance_inputs.discount_rate = some r) :
    discounted_energy_total finance_inputs total_daily sy ey
      = .ok (∑ i ∈ Finset.range (min ((ey - sy) * 365) total_daily.length),
          (1 + _daily_discount_rate (r : ℝ)) ^ (-((sy * 365 + i : ℕ) : ℤ))
            * ((total_daily.getD i 0 : ℚ) : ℝ)) := by
  simp only [discounted_energy_total, h]
  congr 1
  have hsub : ey * 365 - sy * 365 = (ey - sy) * 365 := by omega
  simp only [_discounted_fraction, hsub, sum_zipWith_mul_map_range',
    List.length_map]
  exact Finset.sum_congr rfl fun i _ => by rw [getD_map_ratCast]

theorem daily_discount_rate_zero : _daily_discount_rate 0 = 0 := by
  simp [_daily_discount_rate, Real.one_rpow]

theorem one_lt_discount_base {r : ℝ} (h : 0 < r) :
    1 < 1 + _daily_discount_rate r := by
  unfold _daily_discount_rate
  have h1 : (0 : ℝ) < 1 + r := by linarith
  have h2 : 1 < (1 + r) ^ ((1 : ℝ) / 365) :=
    (Real.one_lt_rpow_iff_of_pos h1).mpr (Or.inl ⟨by linarith, by norm_num⟩)
  linarith

/-! ### Concrete finance inputs used by witnesses and counterexamples -/

/-- A component record with every cost zero. -/
def zeroCosts : ComponentCosts :=
  { cost := 0, cost_decrease := 0, om := 0, lifetime := 0,
    size_increment := 0, connection_cost := 0 }

/-- Finance inputs holding only a discount rate of 0.1. -/
def fiRateOnly : FinanceInputs := { discount_rate := some (1 / 10) }

/-- Finance inputs with every unconditionally-read entry present (all costs
zero) and the optional tank / PV-T entries absent. -/
def fiFull : FinanceInputs :=
  { bos := some zeroCosts, diesel_generator := some zeroCosts,
    general_om := some 0, pv := some zeroCosts, storage := some zeroCosts,
    misc := some zeroCosts, discount_rate := some 0 }

/-- Households entry with connection cost 50, discount rate 0.1. -/
def fiC5 : FinanceInputs :=
  { households := some { zeroCosts with connection_cost := 50 },
    discount_rate := some (1 / 10) }

/-- Diesel unit cost 7, everything else zero. -/
def fiC1a : FinanceInputs :=
  { bos := some zeroCosts,
    diesel_generator := some { zeroCosts with cost := 7 },
    pv := some zeroCosts, storage := some zeroCosts, misc := some zeroCosts }

/-- PV-T unit cost 100, everything else zero. -/
def fiC1b : FinanceInputs :=
  { bos := some zeroCosts, diesel_generator := some zeroCosts,
    pv := some zeroCosts, storage := some zeroCosts, misc := some zeroCosts,
    pv_t := some { zeroCosts with cost := 100 } }

/-- Finance inputs holding only a BOS entry. -/
def fiBosOnly : FinanceInputs := { bos := some zeroCosts }

/-- Inverter record: cost 200, lifetime 10, size increment 1. -/
def invCC : ComponentCosts :=
  { cost := 200, cost_decrease := 0, om := 0, lifetime := 10,
    size_increment := 1, connection_cost := 0 }

/-- Finance inputs with the inverter record above and discount rate 0. -/
def fiInv : FinanceInputs :=
  { inverter := some invCC, discount_rate := some 0 }

/-! ### Claim theorems -/

/-- C4: `_discounted_fraction` yields `(end_year - start_year) * 365` values,
one per day index `t` in `[start_year*365, end_year*365)`; the value at day
`t` (counted from the epoch, not from `start_year`) is `(1 + r_d) ^ (-t)`
with `r_d = (1 + discount_rate) ^ (1/365) - 1`, and when the rate is 0 every
value equals 1. -/
theorem discounted_fraction_values (r : ℝ) (start_year end_year : ℕ) :
    (_discounted_fraction r start_year end_year).length
        = (end_year - start_year) * 365 ∧
    (∀ i, i < (end_year - start_year) * 365 →
      (_discounted_fraction r start_year end_year).getD i 0
        = (1 + ((1 + r) ^ ((1 : ℝ) / 365) - 1))
            ^ (-((start_year * 365 + i : ℕ) : ℤ))) ∧
    (r = 0 → ∀ i, i < (end_year - start_year) * 365 →
      (_discounted_fraction r start_year end_year).getD i 0 = 1) := by
  refine ⟨length_discounted_fraction r _ _, fun i hi => ?_, fun hr i hi => ?_⟩
  · rw [getD_discounted_fraction r _ _ i hi]; rfl
  · subst hr
    rw [getD_discounted_fraction 0 _ _ i hi, daily_discount_rate_zero]
    simp

/-- C4 witness: rate 0, window (0, 1), day 0. -/
theorem discounted_fraction_values_witness :
    (_discounted_fraction 0 0 1).length = (1 - 0) * 365 ∧
    (_discounted_fraction 0 0 1).getD 0 0 = 1 := by
  obtain ⟨h1, _, h3⟩ := discounted_fraction_values 0 0 1
  exact ⟨h1, h3 rfl 0 (by norm_num)⟩

/-- C8: the first element of the overall (`start_year = 0`) discount-fraction
sequence is 1, and for a strictly positive annual rate the sequence is
strictly decreasing in the day index. -/
theorem discounted_fraction_head_one_strict_decreasing (r : ℝ)
    (end_year : ℕ) :
    (0 < end_year → (_discounted_fraction r 0 end_year).head? = some 1) ∧
    (0 < r → ∀ i j, i < j → j < (end_year - 0) * 365 →
      (_discounted_fraction r 0 end_year).getD j 0
        < (_discounted_fraction r 0 end_year).getD i 0) := by
  constructor
  · intro hey
    obtain ⟨m, hm⟩ : ∃ m, end_year * 365 = m + 1 :=
      ⟨end_year * 365 - 1, by omega⟩
    simp only [_discounted_fraction, Nat.zero_mul, Nat.sub_zero, hm,
      List.range'_succ, List.map_cons, List.head?_cons]
    norm_num
  · intro hr i j hij hj
    rw [getD_discounted_fraction r 0 end_year j hj,
      getD_discounted_fraction r 0 end_year i (hij.trans hj)]
    exact zpow_lt_zpow_right₀ (one_lt_discount_base hr) (by push_cast; omega)

/-- C8 witness: rate 1, window (0, 1), days 0 and 1. -/
theorem discounted_fraction_head_one_strict_decreasing_witness :
    (_discounted_fraction 1 0 1).head? = some 1 ∧
    (_discounted_fraction 1 0 1).getD 1 0
      < (_discounted_fraction 1 0 1).getD 0 0 := by
  obtain ⟨h1, h2⟩ := discounted_fraction_head_one_strict_decreasing 1 1
  exact ⟨h1 (by norm_num), h2 one_pos 0 1 (by norm_num) (by norm_num)⟩

/-- C2 counterexample: a one-day series against the 365-day window (0, 1) is
not rejected — the source has no dimension-mismatch check; pandas index
alignment keeps the overlap, so the call succeeds and returns the day-0
product, 1. -/
theorem discounted_energy_total_length_mismatch_no_error :
    discounted_energy_total fiRateOnly [1] 0 1 = Except.ok 1 := by
  rw [discounted_energy_total_eq fiRateOnly [1] 0 1 (1 / 10) rfl]
  norm_num

/-- C2 (amended): with a discount rate present the call always succeeds; the
daily series is aligned with the discount-fraction sequence on the 0-based
day index and the NaN-skipping sum keeps the overlapping prefix, so the
result is the sum of `fraction(t) * daily(t)` over
`min (window length) (series length)` days — for matching lengths, the sum
of the element-wise product over the whole window. -/
theorem discounted_energy_total_overlap_sum (fi : FinanceInputs)
    (daily : List ℚ) (sy ey : ℕ) (r : ℚ) (h : fi.discount_rate = some r) :
    discounted_energy_total fi daily sy ey
      = Except.ok (∑ i ∈ Finset.range (min ((ey - sy) * 365) daily.length),
          (1 + ((1 + (r : ℝ)) ^ ((1 : ℝ) / 365) - 1))
            ^ (-((sy * 365 + i : ℕ) : ℤ)) * ((daily.getD i 0 : ℚ) : ℝ)) := by
  rw [discounted_energy_total_eq fi daily sy ey r h]; rfl

/-- C2 witness: the amended statement at the empty series and window (0, 0). -/
theorem discounted_energy_total_overlap_sum_witness :
    discounted_energy_total fiRateOnly [] 0 0
      = Except.ok (∑ i ∈ Finset.range
            (min ((0 - 0) * 365) ([] : List ℚ).length),
          (1 + ((1 + ((1 / 10 : ℚ) : ℝ)) ^ ((1 : ℝ) / 365) - 1))
            ^ (-((0 * 365 + i : ℕ) : ℤ))
            * ((([] : List ℚ).getD i 0 : ℚ) : ℝ)) :=
  discounted_energy_total_overlap_sum fiRateOnly [] 0 0 (1 / 10) rfl

/-- C3: `_component_om` builds a constant daily series of value
`size * om / 365` replicated over exactly `(end_year - start_year) * 265`
days (265, not 365) and returns exactly `discounted_energy_total` applied to
that series over the same window; with a discount rate present its value
discounts precisely those `(ey - sy) * 265` days. -/
theorem component_om_replicates_265_days (om size : ℚ) (fi : FinanceInputs)
    (sy ey : ℕ) (r : ℚ) (h : fi.discount_rate = some r) :
    _component_om om size fi sy ey
      = discounted_energy_total fi
          (List.replicate ((ey - sy) * 265) (size * om / 365)) sy ey ∧
    _component_om om size fi sy ey
      = Except.ok (∑ i ∈ Finset.range ((ey - sy) * 265),
          (1 + _daily_discount_rate (r : ℝ)) ^ (-((sy * 365 + i : ℕ) : ℤ))
            * ((size * om / 365 : ℚ) : ℝ)) := by
  refine ⟨rfl, ?_⟩
  rw [show _component_om om size fi sy ey = discounted_energy_total fi
      (List.replicate ((ey - sy) * 265) (size * om / 365)) sy ey from rfl,
    discounted_energy_total_eq _ _ _ _ r h]
  congr 1
  rw [List.length_replicate, Nat.min_eq_right (by omega)]
  refine Finset.sum_congr rfl fun i hi => ?_
  rw [List.getD_eq_getElem?_getD, List.getElem?_replicate,
    if_pos (Finset.mem_range.mp hi)]
  rfl

/-- C3 witness: O&M cost 365, size 1, window (0, 1), rate 0.1. -/
theorem component_om_replicates_265_days_witness :
    _component_om 365 1 fiRateOnly 0 1
      = discounted_energy_total fiRateOnly
          (List.replicate ((1 - 0) * 265) (1 * 365 / 365)) 0 1 ∧
    _component_om 365 1 fiRateOnly 0 1
      = Except.ok (∑ i ∈ Finset.range ((1 - 0) * 265),
          (1 + _daily_discount_rate ((1 / 10 : ℚ) : ℝ))
            ^ (-((0 * 365 + i : ℕ) : ℤ)) * ((1 * 365 / 365 : ℚ) : ℝ)) :=
  component_om_replicates_265_days 365 1 fiRateOnly 0 1 (1 / 10) rfl

/-- C5: with a HOUSEHOLDS connection cost and a discount rate present,
`connections_expenditure` on a nonempty households series returns
`(max - min) * connection_cost * (1 - discount_rate) ^ installation_year`;
on `[10,10,10,20,20]` with cost 50, rate 0.1, year 2 this is 405. -/
theorem connections_expenditure_formula (fi : FinanceInputs)
    (hh : ComponentCosts) (r h : ℚ) (t : List ℚ) (installation_year : ℕ)
    (h1 : fi.households = some hh) (h2 : fi.discount_rate = some r) :
    connections_expenditure fi (h :: t) installation_year
      = Except.ok ((npMax (h :: t) - npMin (h :: t)) * hh.connection_cost
          * (1 - r) ^ installation_year) ∧
    connections_expenditure fiC5 [10, 10, 10, 20, 20] 2 = Except.ok 405 := by
  constructor
  · simp only [connections_expenditure, h1, h2, getEntry, getScalar, bindE]
    congr 1
    ring
  · norm_num [connections_expenditure, fiC5, zeroCosts, getEntry, getScalar,
      bindE, npMax, npMin, List.foldl_cons, List.foldl_nil, max_def, min_def]

/-- C5 witness: the general formula at the scenario inputs. -/
theorem connections_expenditure_formula_witness :
    connections_expenditure fiC5 (10 :: [10, 10, 20, 20]) 2
      = Except.ok ((npMax (10 :: [10, 10, 20, 20])
          - npMin (10 :: [10, 10, 20, 20]))
          * ({ zeroCosts with connection_cost := 50 } : ComponentCosts).connection_cost
          * (1 - 1 / 10) ^ 2) ∧
    connections_expenditure fiC5 [10, 10, 10, 20, 20] 2 = Except.ok 405 :=
  connections_expenditure_formula fiC5
    { zeroCosts with connection_cost := 50 } (1 / 10) 10 [10, 10, 20, 20] 2
    rfl rfl

/-- C9: whenever `get_total_equipment_cost` succeeds and the finance inputs
hold a discount rate, `discounted_equipment_cost` on the same sizes and year
returns exactly that total times `(1 - discount_rate) ^ installation_year`. -/
theorem discounted_equipment_cost_discounts_total
    (cwt d hwt pv pvt s : ℚ) (fi : FinanceInputs) (year : ℕ) (c r : ℚ)
    (h1 : get_total_equipment_cost cwt d fi hwt pv pvt s year = Except.ok c)
    (h2 : fi.discount_rate = some r) :
    discounted_equipment_cost cwt d fi hwt pv pvt s year
      = Except.ok (c * (1 - r) ^ year) := by
  simp only [discounted_equipment_cost, h1, h2, getScalar, bindE]

/-- C9 witness: all-zero sizes and costs. -/
theorem discounted_equipment_cost_discounts_total_witness :
    discounted_equipment_cost 0 0 fiFull 0 0 0 0 0
      = Except.ok (0 * (1 - 0) ^ 0) :=
  discounted_equipment_cost_discounts_total 0 0 0 0 0 0 fiFull 0 0 0
    (by norm_num [get_total_equipment_cost, fiFull, zeroCosts, getEntry,
      bindE, _component_cost, _component_installation_cost, _misc_costs])
    rfl

/-- C1: the source computes the diesel installation cost from `pv_array_size`
(line 444, not `diesel_size`) and the PV-T capital cost from `pv_array_size`
(line 512, not `pvt_array_size`).  With every other unit cost zero: a call
with `diesel_size = 0`, `pv_array_size = 1` and diesel unit cost 7 returns 7
where the claim's per-own-size formula gives 0; a call with
`pv_array_size = 1`, `pvt_array_size = 3` and PV-T unit cost 100 returns
100 + 300 = 400 where the claim's formula gives 300 + 300 = 600. -/
theorem diesel_installation_and_pvt_capital_use_pv_array_size :
    get_total_equipment_cost 0 0 fiC1a 0 1 0 0 0 = Except.ok 7 ∧
    get_total_equipment_cost 0 0 fiC1b 0 1 3 0 0 = Except.ok 400 := by
  constructor
  · norm_num [get_total_equipment_cost, fiC1a, zeroCosts, getEntry, bindE,
      _component_cost, _component_installation_cost, _misc_costs]
  · norm_num [get_total_equipment_cost, fiC1b, zeroCosts, getEntry, bindE,
      _component_cost, _component_installation_cost, _misc_costs]
    exact fun h => Option.noConfusion h

/-- C7: with the BOS entry present (it is read first), a positive clean-water
tank count and no CLEAN_WATER_TANK entry raise the missing-input error naming
the clean-water component; with a zero count the clean-water entry is never
read and contributes nothing, whatever it holds. -/
theorem equipment_cost_clean_water_validation
    (cwt d hwt pv pvt s : ℚ) (year : ℕ) :
    (∀ (fi : FinanceInputs) (b : ComponentCosts),
      fi.bos = some b → fi.clean_water_tank = none → 0 < cwt →
      get_total_equipment_cost cwt d fi hwt pv pvt s year
        = Except.error
            (.inputFileError "finance inputs" "clean_water_tank")) ∧
    (∀ (fi : FinanceInputs) (o o' : Option ComponentCosts),
      get_total_equipment_cost 0 d
          { fi with clean_water_tank := o } hwt pv pvt s year
        = get_total_equipment_cost 0 d
          { fi with clean_water_tank := o' } hwt pv pvt s year) := by
  constructor
  · intro fi b hb hcw hpos
    simp only [get_total_equipment_cost, hb, getEntry, bindE]
    rw [if_pos (⟨hcw, hpos⟩ : fi.clean_water_tank = none ∧ 0 < cwt)]
  · intro fi o o'
    simp [get_total_equipment_cost, lt_self_iff_false]

/-- C7 witness: count 1 with a missing entry errors; count 0 is insensitive
to the entry. -/
theorem equipment_cost_clean_water_validation_witness :
    get_total_equipment_cost 1 0 fiBosOnly 0 0 0 0 0
      = Except.error (.inputFileError "finance inputs" "clean_water_tank") ∧
    get_total_equipment_cost 0 0
        { fiFull with clean_water_tank := some zeroCosts } 0 0 0 0 0
      = get_total_equipment_cost 0 0
        { fiFull with clean_water_tank := none } 0 0 0 0 0 := by
  obtain ⟨h1, h2⟩ := equipment_cost_clean_water_validation 1 0 0 0 0 0 0
  exact ⟨h1 fiBosOnly zeroCosts rfl rfl (by norm_num),
    h2 fiFull (some zeroCosts) none⟩

/-- C10: with every size zero, `get_total_equipment_cost` still ends in a
key-lookup error when any of its unconditionally-read entries (BOS,
diesel-generator, PV, storage, misc) is absent, and `total_om` when any of
diesel-generator, general O&M, PV or storage is absent; with those entries
(and a discount rate) present, both calls succeed even though the optional
CLEAN_WATER_TANK, HOT_WATER_TANK and PV_T entries are all absent. -/
theorem required_finance_entries_unconditional (year sy ey : ℕ) :
    (∀ fi : FinanceInputs, fi.bos = none →
      isKeyError (get_total_equipment_cost 0 0 fi 0 0 0 0 year) = true) ∧
    (∀ fi : FinanceInputs, fi.diesel_generator = none →
      isKeyError (get_total_equipment_cost 0 0 fi 0 0 0 0 year) = true) ∧
    (∀ fi : FinanceInputs, fi.pv = none →
      isKeyError (get_total_equipment_cost 0 0 fi 0 0 0 0 year) = true) ∧
    (∀ fi : FinanceInputs, fi.storage = none →
      isKeyError (get_total_equipment_cost 0 0 fi 0 0 0 0 year) = true) ∧
    (∀ fi : FinanceInputs, fi.misc = none →
      isKeyError (get_total_equipment_cost 0 0 fi 0 0 0 0 year) = true) ∧
    (∀ fi : FinanceInputs, fi.diesel_generator = none →
      isKeyError (total_om 0 0 fi 0 0 0 0 sy ey) = true) ∧
    (∀ fi : FinanceInputs, fi.general_om = none →
      isKeyError (total_om 0 0 fi 0 0 0 0 sy ey) = true) ∧
    (∀ fi : FinanceInputs, fi.pv = none →
      isKeyError (total_om 0 0 fi 0 0 0 0 sy ey) = true) ∧
    (∀ fi : FinanceInputs, fi.storage = none →
      isKeyError (total_om 0 0 fi 0 0 0 0 sy ey) = true) ∧
    (∀ (fi : FinanceInputs) (b dg p st mi : ComponentCosts) (g r : ℚ),
      fi.bos = some b → fi.diesel_generator = some dg → fi.pv = some p →
      fi.storage = some st → fi.misc = some mi → fi.general_om = some g →
      fi.discount_rate = some r → fi.clean_water_tank = none →
      fi.hot_water_tank = none → fi.pv_t = none →
      isOkE (get_total_equipment_cost 0 0 fi 0 0 0 0 year) = true ∧
        isOkE (total_om 0 0 fi 0 0 0 0 sy ey) = true) := by
  refine ⟨?_, ?_, ?_, ?_, ?_, ?_, ?_, ?_, ?_, ?_⟩
  · intro fi h
    simp [get_total_equipment_cost, getEntry, bindE, isKeyError, h]
  · intro fi h
    cases hbos : fi.bos with
    | none =>
      simp [get_total_equipment_cost, getEntry, bindE, isKeyError, hbos]
    | some b =>
      simp [get_total_equipment_cost, getEntry, bindE, isKeyError, hbos, h,
        lt_self_iff_false]
  · intro fi h
    cases hbos : fi.bos with
    | none =>
      simp [get_total_equipment_cost, getEntry, bindE, isKeyError, hbos]
    | some b =>
      cases hdg : fi.diesel_generator with
      | none =>
        simp [get_total_equipment_cost, getEntry, bindE, isKeyError, hbos,
          hdg, lt_self_iff_false]
      | some dg =>
        simp [get_total_equipment_cost, getEntry, bindE, isKeyError, hbos,
          hdg, h, lt_self_iff_false]
  · intro fi h
    cases hbos : fi.bos with
    | none =>
      simp [get_total_equipment_cost, getEntry, bindE, isKeyError, hbos]
    | some b =>
      cases hdg : fi.diesel_generator with
      | none =>
        simp [get_total_equipment_cost, getEntry, bindE, isKeyError, hbos,
          hdg, lt_self_iff_false]
      | some dg =>
        cases hpv : fi.pv with
        | none =>
          simp [get_total_equipment_cost, getEntry, bindE, isKeyError, hbos,
            hdg, hpv, lt_self_iff_false]
        | some p =>
          simp [get_total_equipment_cost, getEntry, bindE, isKeyError, hbos,
            hdg, hpv, h, lt_self_iff_false]
  · intro fi h
    cases hbos : fi.bos with
    | none =>
      simp [get_total_equipment_cost, getEntry, bindE, isKeyError, hbos]
    | some b =>
      cases hdg : fi.diesel_generator with
      | none =>
        simp [get_total_equipment_cost, getEntry, bindE, isKeyError, hbos,
          hdg, lt_self_iff_false]
      | some dg =>
        cases hpv : fi.pv with
        | none =>
          simp [get_total_equipment_cost, getEntry, bindE, isKeyError, hbos,
            hdg, hpv, lt_self_iff_false]
        | some p =>
          cases hst : fi.storage with
          | none =>
            simp [get_total_equipment_cost, getEntry, bindE, isKeyError,
              hbos, hdg, hpv, hst, lt_self_iff_false]
          | some st =>
            simp [get_total_equipment_cost, getEntry, bindE, isKeyError,
              hbos, hdg, hpv, hst, h, lt_self_iff_false]
  · intro fi h
    simp [total_om, _component_om, discounted_energy_total, getEntry,
      getScalar, bindE, isKeyError, h, lt_self_iff_false]
  · intro fi h
    cases hdg : fi.diesel_generator with
    | none =>
      simp [total_om, getEntry, bindE, isKeyError, hdg, lt_self_iff_false]
    | some dg =>
      cases hr : fi.discount_rate with
      | none =>
        simp [total_om, _component_om, discounted_energy_total, getEntry,
          getScalar, bindE, isKeyError, hdg, hr, lt_self_iff_false]
      | some r =>
        simp [total_om, _component_om, discounted_energy_total, getEntry,
          getScalar, bindE, isKeyError, hdg, hr, h, lt_self_iff_false]
  · intro fi h
    cases hdg : fi.diesel_generator with
    | none =>
      simp [total_om, getEntry, bindE, isKeyError, hdg, lt_self_iff_false]
    | some dg =>
      cases hr : fi.discount_rate with
      | none =>
        simp [total_om, _component_om, discounted_energy_total, getEntry,
          getScalar, bindE, isKeyError, hdg, hr, lt_self_iff_false]
      | some r =>
        cases hg : fi.general_om with
        | none =>
          simp [total_om, _component_om, discounted_energy_total, getEntry,
            getScalar, bindE, isKeyError, hdg, hr, hg, lt_self_iff_false]
        | some g =>
          simp [total_om, _component_om, discounted_energy_total, getEntry,
            getScalar, bindE, isKeyError, hdg, hr, hg, h, lt_self_iff_false]
  · intro fi h
    cases hdg : fi.diesel_generator with
    | none =>
      simp [total_om, getEntry, bindE, isKeyError, hdg, lt_self_iff_false]
    | some dg =>
      cases hr : fi.discount_rate with
      | none =>
        simp [total_om, _component_om, discounted_energy_total, getEntry,
          getScalar, bindE, isKeyError, hdg, hr, lt_self_iff_false]
      | some r =>
        cases hg : fi.general_om with
        | none =>
          simp [total_om, _component_om, discounted_energy_total, getEntry,
            getScalar, bindE, isKeyError, hdg, hr, hg, lt_self_iff_false]
        | some g =>
          cases hpv : fi.pv with
          | none =>
            simp [total_om, _component_om, discounted_energy_total, getEntry,
              getScalar, bindE, isKeyError, hdg, hr, hg, hpv,
              lt_self_iff_false]
          | some p =>
            simp [total_om, _component_om, discounted_energy_total, getEntry,
              getScalar, bindE, isKeyError, hdg, hr, hg, hpv, h,
              lt_self_iff_false]
  · intro fi b dg p st mi g r hb hdg hpv hst hmi hg hr hcw hhw hpvt
    constructor
    · simp [isOkE, get_total_equipment_cost, getEntry, bindE, hb, hdg, hpv,
        hst, hmi, lt_self_iff_false]
    · simp [isOkE, total_om, _component_om, discounted_energy_total,
        getEntry, getScalar, bindE, hb, hdg, hpv, hst, hmi, hg, hr,
        lt_self_iff_false]

/-- C10 witness: each required entry removed in turn from the otherwise-full
inputs, all sizes zero. -/
theorem required_finance_entries_unconditional_witness :
    isKeyError (get_total_equipment_cost 0 0 { fiFull with bos := none }
      0 0 0 0 0) = true ∧
    isKeyError (get_total_equipment_cost 0 0
      { fiFull with diesel_generator := none } 0 0 0 0 0) = true ∧
    isKeyError (get_total_equipment_cost 0 0 { fiFull with pv := none }
      0 0 0 0 0) = true ∧
    isKeyError (get_total_equipment_cost 0 0 { fiFull with storage := none }
      0 0 0 0 0) = true ∧
    isKeyError (get_total_equipment_cost 0 0 { fiFull with misc := none }
      0 0 0 0 0) = true ∧
    isKeyError (total_om 0 0 { fiFull with diesel_generator := none }
      0 0 0 0 0 1) = true ∧
    isKeyError (total_om 0 0 { fiFull with general_om := none }
      0 0 0 0 0 1) = true ∧
    isKeyError (total_om 0 0 { fiFull with pv := none } 0 0 0 0 0 1) = true ∧
    isKeyError (total_om 0 0 { fiFull with storage := none }
      0 0 0 0 0 1) = true ∧
    (isOkE (get_total_equipment_cost 0 0 fiFull 0 0 0 0 0) = true ∧
      isOkE (total_om 0 0 fiFull 0 0 0 0 0 1) = true) := by
  obtain ⟨h1, h2, h3, h4, h5, h6, h7, h8, h9, h10⟩ :=
    required_finance_entries_unconditional 0 0 1
  exact ⟨h1 _ rfl, h2 _ rfl, h3 _ rfl, h4 _ rfl, h5 _ rfl, h6 _ rfl,
    h7 _ rfl, h8 _ rfl, h9 _ rfl,
    h10 fiFull zeroCosts zeroCosts zeroCosts zeroCosts zeroCosts 0 0
      rfl rfl rfl rfl rfl rfl rfl rfl rfl rfl⟩

/-- C6: the replacement years considered are exactly the multiples of the
inverter lifetime in `[0, max_years)`; the returned total rounds the sum of
the discounted replacement events whose installation year lies in
`[start_year, end_year)` only, and is 0 when no replacement year lies in the
window; with lifetime 10, max_years 20, window `[0, 10)` exactly the event
at year 0 is included and the event at year 10 is excluded. -/
theorem inverter_expenditure_replacement_windows :
    (∀ maxY L y, 0 < L →
      (y ∈ npArange maxY L ↔ (∃ k, y = k * L) ∧ y < maxY)) ∧
    (∀ (fi : FinanceInputs) (maxY : ℕ) (stats : List ℚ) (sy ey : ℕ)
      (inv : ComponentCosts), fi.inverter = some inv →
      (npArange maxY inv.lifetime).filter
        (fun y => decide (sy ≤ y ∧ y < ey)) = [] →
      _inverter_expenditure fi maxY stats sy ey = Except.ok 0) ∧
    (∀ (fi : FinanceInputs) (maxY : ℕ) (stats : List ℚ) (sy ey : ℕ)
      (inv : ComponentCosts) (r : ℚ), fi.inverter = some inv →
      fi.discount_rate = some r →
      (npArange maxY inv.lifetime).filter
        (fun y => decide (sy ≤ y ∧ y < ey)) ≠ [] →
      _inverter_expenditure fi maxY stats sy ey
        = Except.ok (npRound2 ((((npArange maxY inv.lifetime).filter
            (fun y => decide (sy ≤ y ∧ y < ey))).map fun y =>
              (1 - r) ^ y
                * ((⌈0.001 * (((stats.drop y).take inv.lifetime).max?.getD 0)
                    / inv.size_increment⌉ : ℚ) * inv.size_increment)
                * (inv.cost * (1 - 0.01 * inv.cost_decrease) ^ y)).sum))) ∧
    ((npArange 20 10).filter (fun y => decide (0 ≤ y ∧ y < 10)) = [0] ∧
      10 ∈ npArange 20 10 ∧
      10 ∉ (npArange 20 10).filter (fun y => decide (0 ≤ y ∧ y < 10))) := by
  refine ⟨?_, ?_, ?_, by decide, by decide, by decide⟩
  · intro maxY L y hL
    simp only [npArange, List.mem_map, List.mem_range]
    constructor
    · rintro ⟨k, hk, rfl⟩
      refine ⟨⟨k, rfl⟩, ?_⟩
      rw [Nat.lt_iff_add_one_le, Nat.le_div_iff_mul_le hL, Nat.succ_mul]
        at hk
      generalize k * L = a at hk ⊢
      omega
    · rintro ⟨⟨k, rfl⟩, hlt⟩
      refine ⟨k, ?_, rfl⟩
      rw [Nat.lt_iff_add_one_le, Nat.le_div_iff_mul_le hL, Nat.succ_mul]
      generalize k * L = a at hlt ⊢
      omega
  · intro fi maxY stats sy ey inv hinv hempty
    simp only [_inverter_expenditure, hinv, getEntry, bindE]
    rw [if_pos hempty]
  · intro fi maxY stats sy ey inv r hinv hr hne
    simp only [_inverter_expenditure, hinv, hr, getEntry, getScalar, bindE]
    rw [if_neg hne]
    congr 1
    rw [List.filter_map, List.map_map]
    rfl

/-- C6 witness: lifetime 10, max_years 20.  With the window `[11, 12)` no
replacement year is included and the result is 0; with the window `[0, 10)`
the filtered events are summed; year 10 is a multiple of 10 below 20. -/
theorem inverter_expenditure_replacement_windows_witness :
    (10 ∈ npArange 20 10 ↔ (∃ k, 10 = k * 10) ∧ 10 < 20) ∧
    _inverter_expenditure fiInv 20 [] 11 12 = Except.ok 0 ∧
    _inverter_expenditure fiInv 20 [] 0 10
      = Except.ok (npRound2 ((((npArange 20 invCC.lifetime).filter
          (fun y => decide (0 ≤ y ∧ y < 10))).map fun y =>
            (1 - (0 : ℚ)) ^ y
              * ((⌈0.001 * (((([] : List ℚ).drop y).take
                    invCC.lifetime).max?.getD 0)
                  / invCC.size_increment⌉ : ℚ) * invCC.size_increment)
              * (invCC.cost * (1 - 0.01 * invCC.cost_decrease) ^ y)).sum)) := by
  obtain ⟨h1, h2, h3, _⟩ := inverter_expenditure_replacement_windows
  exact ⟨h1 20 10 10 (by norm_num), h2 fiInv 20 [] 11 12 invCC rfl (by decide),
    h3 fiInv 20 [] 0 10 invCC 0 rfl rfl (by decide)⟩

end Clover
